import Mathlib

/-!
# Verification of the next-learn-dashboard data/mutation core

Shallow embedding of the request-scoped data-fetch and mutation layer of the
dashboard tutorial application, together with theorems settling the spec's
claims about it.  Sources embedded:

* the `authorized` NextAuth callback (`auth.config.ts`),
* the data access layer (`app/lib/data.ts`),
* the invoice mutation actions (`createInvoice` / `updateInvoice`, shown in
  `app/dashboard/invoices/create/page.tsx` and the edit page source).

JavaScript numbers are idealised as rationals (`ℚ`); machine-float rounding is
not modelled.  SQL statements are modelled by pure functions over an explicit
store, with a `dbFails` flag standing for a failing store statement (the code
wraps every statement in `try`/`catch`).
-/

/-- `hasLead needle hay`: `needle` is an initial segment of `hay`. -/
def hasLead : List Char → List Char → Bool
  | [], _ => true
  | _ :: _, [] => false
  | a :: as, b :: bs => a == b && hasLead as bs

/-- `hasSub needle hay`: `needle` occurs contiguously somewhere in `hay`. -/
def hasSub (needle : List Char) : List Char → Bool
  | [] => hasLead needle []
  | hay@(_ :: rest) => hasLead needle hay || hasSub needle rest

/-- The three decisions the authorization gate can express: `true` (allow),
`false` (NextAuth redirects the request to the configured sign-in page), or a
`Response.redirect` away to another path. -/
inductive AuthDecision
  | allow
  | denyRedirect (target : String)
  | redirectAway (target : String)
deriving DecidableEq, Repr

/-- `String.prototype.startsWith`: plain prefix matching on the characters. -/
def startsWithStr (s pre : String) : Bool := hasLead pre.data s.data

/-- Embedding of the `authorized` callback of `auth.config.ts`:

```ts
authorized({ auth, request: { nextUrl } }) {
  const isLoggedIn = !!auth?.user;
  const isOnDashboard = nextUrl.pathname.startsWith('/dashboard');
  if (isOnDashboard) {
    if (isLoggedIn) return true;
    return false; // Redirect unauthenticated users to login page
  } else if (isLoggedIn) {
    return Response.redirect(new URL('/dashboard', nextUrl));
  }
  return true;
}
```

`false` is rendered as `denyRedirect "/login"` because `pages.signIn` is
`'/login'`. -/
def authorized (sessionPresent : Bool) (requestedPath : String) : AuthDecision :=
  let isLoggedIn := sessionPresent
  let isOnDashboard := startsWithStr requestedPath "/dashboard"
  if isOnDashboard then
    if isLoggedIn then .allow else .denyRedirect "/login"
  else if isLoggedIn then .redirectAway "/dashboard"
  else .allow

/-- The spec's notion of a public page ("path is public (e.g. login)"): the
login page is the public page named by the spec. -/
def isPublicPath (p : String) : Bool := p == "/login"

/-- The spec's decision table for the authorization gate, transcribed row by
row from §4.3 (protected prefix `/dashboard`, `loginPath = "/login"`,
`homePath = "/dashboard"`):

| sessionPresent | protected | public | Result |
|---|---|---|---|
| true | yes | — | Allow |
| false | yes | — | DenyRedirect(login) |
| true | no | yes | RedirectAway(home) |
| false | no | yes | Allow |
| any | no | no | Allow |
-/
def specGate (sessionPresent : Bool) (p : String) : AuthDecision :=
  if startsWithStr p "/dashboard" then
    if sessionPresent then .allow else .denyRedirect "/login"
  else if isPublicPath p then
    if sessionPresent then .redirectAway "/dashboard" else .allow
  else .allow

/-- The spec's decision table amended to match the code: on a path that is
neither protected nor public, a session-present request is redirected away to
home (the code does not distinguish public from other unprotected paths). -/
def specGateAmended (sessionPresent : Bool) (p : String) : AuthDecision :=
  if startsWithStr p "/dashboard" then
    if sessionPresent then .allow else .denyRedirect "/login"
  else if isPublicPath p then
    if sessionPresent then .redirectAway "/dashboard" else .allow
  else if sessionPresent then .redirectAway "/dashboard"
  else .allow

/-! ## Data model (`definitions.ts`, store schema §6) -/

/-- Invoice status: `status TEXT`, constrained by the schema to the enum
`['pending', 'paid']`. -/
inductive Status
  | pending
  | paid
deriving DecidableEq, Repr

/-- The text stored in the `status` column. -/
def Status.text : Status → String
  | .pending => "pending"
  | .paid => "paid"

/-- A row of `customers(id, name, email, image_url)`. -/
structure Customer where
  id : String
  name : String
  email : String
  image_url : String
deriving DecidableEq, Repr

/-- A row of `invoices(id, customer_id, amount, status, date)`.  The `amount`
column holds the value the mutation pipeline sends for the cents column; the
pipeline computes it as `dollars * 100` (a `ℚ`, since the code performs no
rounding). -/
structure Invoice where
  id : String
  customer_id : String
  amount : ℚ
  status : Status
  date : String
deriving DecidableEq, Repr

/-- The relational store owned by the backing database (the tables the
claims touch). -/
structure Store where
  customers : List Customer
  invoices : List Invoice
deriving DecidableEq, Repr

/-- The request-scoped world a call runs in: the store contents, whether the
store statement issued by the call fails (every data.ts/actions call wraps its
SQL in `try`/`catch`), the ISO date `new Date().toISOString().split('T')[0]`
of the processing instant, and the row id the database generates for an
`INSERT`. -/
structure World where
  store : Store
  dbFails : Bool
  today : String
  freshId : String
deriving DecidableEq, Repr

/-- The single store-failure kind: each data-access function rethrows any
store error as one generic `Error('Failed to ...')`. -/
inductive DbError
  | storeError
deriving DecidableEq, Repr

/-- Executing one SQL statement in a world: produces the given result rows
unless the store fails. -/
def runSql (w : World) (rows : List α) : Except DbError (List α) :=
  if w.dbFails then .error .storeError else .ok rows

/-! ## String machinery for the SQL `ILIKE '%q%'` filter

The filter columns are compared case-insensitively for substring containment.
Characters are handled as lists so that every operation reduces in the
kernel. -/

/-- `hay ILIKE '%' || q || '%'`: case-insensitive containment of `q` in
`hay` (`%`/`_` wildcards inside `q` itself are not modelled; no claim uses
them). -/
def ilike (hay q : String) : Bool :=
  hasSub (q.data.map Char.toLower) (hay.data.map Char.toLower)

/-- The text Postgres produces for the cents column under `::text`
(`amount` is integral in every well-formed store; a fractional value is
rendered with an explicit denominator so the function stays total). -/
def ratText (a : ℚ) : String :=
  if a.den = 1 then toString a.num else toString a.num ++ "/" ++ toString a.den

/-! ## Data Access Layer (`app/lib/data.ts`) -/

/-- `const ITEMS_PER_PAGE = 6;` -/
def ITEMS_PER_PAGE : ℤ := 6

/-- A result row of the filtered invoice list (the columns selected by
`fetchFilteredInvoices`). -/
structure InvoiceRow where
  id : String
  amount : ℚ
  date : String
  status : Status
  name : String
  email : String
  image_url : String
deriving DecidableEq, Repr

/-- `FROM invoices JOIN customers ON invoices.customer_id = customers.id`,
projected onto the selected columns. -/
def joinRows (s : Store) : List InvoiceRow :=
  s.invoices.flatMap fun i =>
    (s.customers.filter fun c => c.id == i.customer_id).map fun c =>
      ⟨i.id, i.amount, i.date, i.status, c.name, c.email, c.image_url⟩

/-- The `WHERE` clause shared by `fetchFilteredInvoices` and
`fetchInvoicesPages`: any of customer name, customer email, `amount::text`,
`date::text`, or `status` contains `query` case-insensitively. -/
def matchesQuery (q : String) (r : InvoiceRow) : Bool :=
  ilike r.name q || ilike r.email q || ilike (ratText r.amount) q ||
    ilike r.date q || ilike r.status.text q

/-- Lexicographic comparison on the character lists of two strings:
ISO dates compare chronologically this way. -/
def clLt : List Char → List Char → Bool
  | [], [] => false
  | [], _ :: _ => true
  | _ :: _, [] => false
  | a :: as, b :: bs => if a < b then true else if b < a then false else clLt as bs

/-- Insert a row into a date-descending list (`ORDER BY invoices.date DESC`;
the order among equal dates is store-defined and carries no guarantee). -/
def insertByDateDesc (r : InvoiceRow) : List InvoiceRow → List InvoiceRow
  | [] => [r]
  | x :: xs =>
    if clLt x.date.data r.date.data then r :: x :: xs else x :: insertByDateDesc r xs

/-- `ORDER BY invoices.date DESC`. -/
def sortByDateDesc : List InvoiceRow → List InvoiceRow
  | [] => []
  | r :: rs => insertByDateDesc r (sortByDateDesc rs)

/-- `const offset = (currentPage - 1) * ITEMS_PER_PAGE;` — computed before the
query, with no clamping. -/
def invoicesOffset (currentPage : ℤ) : ℤ := (currentPage - 1) * ITEMS_PER_PAGE

/-- Embedding of `fetchFilteredInvoices(query, currentPage)`: filter the
joined rows, order by date descending, and apply
`LIMIT ITEMS_PER_PAGE OFFSET offset`.  Postgres rejects a negative `OFFSET`,
and the `catch` block rethrows that as the same generic failure as any other
store error. -/
def fetchFilteredInvoices (w : World) (query : String) (currentPage : ℤ) :
    Except DbError (List InvoiceRow) :=
  let offset := invoicesOffset currentPage
  if offset < 0 then .error .storeError
  else
    match runSql w (sortByDateDesc ((joinRows w.store).filter (matchesQuery query))) with
    | .error e => .error e
    | .ok rows => .ok ((rows.drop offset.toNat).take ITEMS_PER_PAGE.toNat)

/-- The row count of the shared `COUNT(*)` query of `fetchInvoicesPages`. -/
def matchingCount (s : Store) (q : String) : ℕ :=
  ((joinRows s).filter (matchesQuery q)).length

/-- `Math.ceil(Number(count) / ITEMS_PER_PAGE)`. -/
def totalPages (count : ℕ) : ℤ := ⌈(count : ℚ) / (ITEMS_PER_PAGE : ℚ)⌉

/-- Embedding of `fetchInvoicesPages(query)`: count the rows matching the same
filter predicate, then take the ceiling of `count / ITEMS_PER_PAGE`. -/
def fetchInvoicesPages (w : World) (query : String) : Except DbError ℤ :=
  (runSql w [matchingCount w.store query]).map fun rows => totalPages (rows.headD 0)

/-- `cents / 100`: the read-time conversion in `fetchInvoiceById`
(`amount: invoice.amount / 100`). -/
def toDollars (cents : ℚ) : ℚ := cents / 100

/-- The columns `fetchInvoiceById` selects, after the cents→dollars map. -/
structure InvoiceFormRow where
  id : String
  customer_id : String
  amount : ℚ
  status : Status
deriving DecidableEq, Repr

/-- Embedding of `fetchInvoiceById(id)`: select the rows with that id, divide
`amount` by 100, and return element `[0]` (which is `undefined` when no row
matches).  The `catch` block only logs — a store error falls out of the
function with the same `undefined` result. -/
def fetchInvoiceById (w : World) (id : String) : Option InvoiceFormRow :=
  match runSql w (w.store.invoices.filter fun i => i.id == id) with
  | .error _ => none
  | .ok rows =>
    ((rows.map fun i => ⟨i.id, i.customer_id, toDollars i.amount, i.status⟩) :
      List InvoiceFormRow).head?

/-- Modelled from the spec: `formatCurrency` lives in `app/lib/utils.ts`,
which is not among the provided sources.  Per the spec (§2 "Formatting
utilities": pure functions converting integer cents to display currency
strings) it renders `cents / 100` dollars with a currency sign. -/
def formatCurrency (cents : ℚ) : String := "$" ++ ratText (cents / 100)

/-- The sum the `SUM(CASE WHEN status = _ THEN amount ELSE 0 END)` aggregate
computes over a nonempty invoices table. -/
def sumByStatus (st : Status) (invs : List Invoice) : ℚ :=
  (invs.map fun i => if i.status == st then i.amount else 0).sum

/-- The raw aggregate result: SQL `SUM` over zero input rows is `NULL`
(`none`); over a nonempty table it is the case-wise sum. -/
def sqlStatusSum (st : Status) (invs : List Invoice) : Option ℚ :=
  if invs.isEmpty then none else some (sumByStatus st invs)

/-- The record `fetchCardData` returns. -/
structure CardData where
  numberOfCustomers : ℕ
  numberOfInvoices : ℕ
  totalPaidInvoices : String
  totalPendingInvoices : String
deriving DecidableEq, Repr

/-- Embedding of `fetchCardData()`: three statements run under one `try`
(`COUNT(*)` of invoices, `COUNT(*)` of customers, and the status sums), each
result coalesced with `?? '0'` before `Number`/`formatCurrency`
(`COUNT(*)` itself is never `NULL`, so only the sums can trigger the
coalescing). -/
def fetchCardData (w : World) : Except DbError CardData :=
  if w.dbFails then .error .storeError
  else
    .ok
      { numberOfCustomers := w.store.customers.length
        numberOfInvoices := w.store.invoices.length
        totalPaidInvoices :=
          formatCurrency ((sqlStatusSum .paid w.store.invoices).getD 0)
        totalPendingInvoices :=
          formatCurrency ((sqlStatusSum .pending w.store.invoices).getD 0) }

/-! ## The validation schema (`z.object` in `actions.ts`)

`CreateInvoice = FormSchema.omit({ id: true, date: true })` with
`customerId: z.string()`, `amount: z.coerce.number()`,
`status: z.enum(['pending', 'paid'])`.  `z.coerce.number()` applies the
JavaScript `Number()` coercion and then rejects `NaN`.  `Number()` is
modelled on the decimal numerals a form can submit: surrounding whitespace is
trimmed, the empty string is `0`, an optional sign precedes digits with at
most one decimal point; anything else is `NaN` (`none`). -/

/-- Whitespace trimmed by the `Number()` coercion. -/
def isWs (c : Char) : Bool := c == ' ' || c == '\t' || c == '\n' || c == '\r'

/-- Trim leading and trailing whitespace from a character list. -/
def trimCL (cs : List Char) : List Char :=
  ((cs.dropWhile isWs).reverse.dropWhile isWs).reverse

/-- The value of a decimal digit. -/
def digitVal (c : Char) : Option ℕ :=
  if c.isDigit then some (c.toNat - 48) else none

/-- Read a digit string as a natural number; `none` on a non-digit. -/
def parseNatCL : List Char → ℕ → Option ℕ
  | [], acc => some acc
  | c :: cs, acc =>
    match digitVal c with
    | some d => parseNatCL cs (10 * acc + d)
    | none => none

/-- Read an unsigned decimal numeral (digits with at most one point, at least
one digit overall, matching `Number()` on e.g. `"12"`, `"12.5"`, `".5"`,
`"12."`). -/
def parseUnsignedDec (cs : List Char) : Option ℚ :=
  match cs.span fun c => c != '.' with
  | (intPart, rest) =>
    match rest with
    | [] =>
      if intPart.isEmpty then none
      else (parseNatCL intPart 0).map fun n => mkRat n 1
    | _ :: fracPart =>
      if fracPart.any fun c => c == '.' then none
      else if intPart.isEmpty && fracPart.isEmpty then none
      else
        match parseNatCL intPart 0, parseNatCL fracPart 0 with
        | some i, some f => some (mkRat (i * 10 ^ fracPart.length + f) (10 ^ fracPart.length))
        | _, _ => none

/-- `Number(s)` for a string `s` (whitespace-only is `0`; `none` is `NaN`). -/
def jsNumberOfString (s : String) : Option ℚ :=
  match trimCL s.data with
  | [] => some (mkRat 0 1)
  | '-' :: rest => (parseUnsignedDec rest).map Rat.neg
  | '+' :: rest => parseUnsignedDec rest
  | cs => parseUnsignedDec cs

/-- The form fields the schema validates. -/
inductive FormField
  | customerId
  | amount
  | status
deriving DecidableEq, Repr

/-- The raw field map a mutation receives: `formData.get(name)` is the field's
string when present and `null` (`none`) when absent. -/
structure FormInput where
  customerId : Option String
  amount : Option String
  status : Option String
deriving DecidableEq, Repr

/-- The typed values `CreateInvoice.parse` / `UpdateInvoice.parse` produce. -/
structure ParsedInvoiceForm where
  customerId : String
  amount : ℚ
  status : Status
deriving DecidableEq, Repr

/-- `z.coerce.number()` applied to a form field: `Number(null)` is `0` in
JavaScript, so an absent field coerces to `0`; a present field goes through
the `Number()` string coercion, and `NaN` (`none`) is rejected. -/
def coerceNumber : Option String → Option ℚ
  | none => some (mkRat 0 1)
  | some s => jsNumberOfString s

/-- `z.enum(['pending', 'paid'])`: exactly those two strings are accepted. -/
def parseStatus : Option String → Option Status
  | some "pending" => some .pending
  | some "paid" => some .paid
  | _ => none

/-- `CreateInvoice.parse` (= `UpdateInvoice.parse`: both are
`FormSchema.omit({ id: true, date: true })`): `customerId` must be a string
(`z.string()` accepts every string, including the empty one, and rejects only
`null`), `amount` must coerce to a non-`NaN` number (no positivity check is
present in the schema), `status` must be one of the enum values.  On failure
the thrown `ZodError` carries one issue per invalid field, identified here by
its path. -/
def zodParse (f : FormInput) : Except (List FormField) ParsedInvoiceForm :=
  match f.customerId, coerceNumber f.amount, parseStatus f.status with
  | some cid, some a, some st => .ok ⟨cid, a, st⟩
  | cid, a, st =>
    .error ((if cid.isNone then [FormField.customerId] else []) ++
      (if a.isNone then [FormField.amount] else []) ++
      (if st.isNone then [FormField.status] else []))

deriving instance DecidableEq for Except

/-! ## Mutation Pipeline (`app/lib/actions.ts`) -/

/-- `dollars * 100`: the write-time conversion
(`const amountInCents = amount * 100;` — the code applies no rounding). -/
def toCents (dollars : ℚ) : ℚ := dollars * 100

/-- How a mutation call ends. -/
inductive MutationOutcome
  | validationError (fields : List FormField)
  | dbError
  | redirected (path : String)
  | completed
deriving DecidableEq, Repr

/-- What a mutation call did: its outcome, the store contents when it
returned, and the paths passed to `revalidatePath`. -/
structure MutationResult where
  outcome : MutationOutcome
  store : Store
  revalidated : List String
deriving DecidableEq, Repr

/-- Embedding of `createInvoice(formData)`: parse the raw fields (a `ZodError`
escapes before any store access), convert dollars to cents, capture the
processing date, run the `INSERT` (a store failure escapes before
`revalidatePath`/`redirect`), then revalidate `/dashboard/invoices` and
redirect there. -/
def createInvoice (w : World) (f : FormInput) : MutationResult :=
  match zodParse f with
  | .error errs => ⟨.validationError errs, w.store, []⟩
  | .ok p =>
    let amountInCents := toCents p.amount
    let date := w.today
    if w.dbFails then ⟨.dbError, w.store, []⟩
    else
      ⟨.redirected "/dashboard/invoices",
        { w.store with
          invoices := w.store.invoices ++
            [⟨w.freshId, p.customerId, amountInCents, p.status, date⟩] },
        ["/dashboard/invoices"]⟩

/-- Embedding of `updateInvoice(id, formData)`: parse the raw fields, convert
dollars to cents, run the `UPDATE ... WHERE id = ...` replacing the three
mutable columns of every matching row (a store failure escapes before
`revalidatePath`/`redirect`), then revalidate and redirect. -/
def updateInvoice (w : World) (id : String) (f : FormInput) : MutationResult :=
  match zodParse f with
  | .error errs => ⟨.validationError errs, w.store, []⟩
  | .ok p =>
    let amountInCents := toCents p.amount
    if w.dbFails then ⟨.dbError, w.store, []⟩
    else
      ⟨.redirected "/dashboard/invoices",
        { w.store with
          invoices := w.store.invoices.map fun i =>
            if i.id == id then
              { i with customer_id := p.customerId, amount := amountInCents,
                       status := p.status }
            else i },
        ["/dashboard/invoices"]⟩

/-- Modelled from the spec: `deleteInvoice` is named by the spec (§6,
`deleteInvoice(id) → cache-invalidation (no redirect)`; §4.2: a single
`DELETE` by id, then cache invalidation) but its source (`app/lib/actions.ts`)
is not among the provided files.  A store failure escapes before
`revalidatePath`, exactly as in the other two mutations. -/
def deleteInvoice (w : World) (id : String) : MutationResult :=
  if w.dbFails then ⟨.dbError, w.store, []⟩
  else
    ⟨.completed,
      { w.store with invoices := w.store.invoices.filter fun i => !(i.id == id) },
      ["/dashboard/invoices"]⟩

/-! ## Concrete fixtures used by counterexamples and witnesses -/

/-- A customer row. -/
def cust1 : Customer := ⟨"c1", "Alice Doe", "alice@example.com", "/img/alice.png"⟩

/-- An invoice of 45 dollars stored as 4500 cents. -/
def inv1 : Invoice := ⟨"inv-1", "c1", mkRat 4500 1, .paid, "2026-01-15"⟩

/-- A one-customer one-invoice store. -/
def store1 : Store := ⟨[cust1], [inv1]⟩

/-- The empty store. -/
def emptyStore : Store := ⟨[], []⟩

/-- A healthy world over `store1`. -/
def wOk : World := ⟨store1, false, "2026-10-12", "inv-new"⟩

/-- A world over `store1` whose store statements fail. -/
def wFail : World := ⟨store1, true, "2026-10-12", "inv-new"⟩

/-- A healthy world over the empty store. -/
def wEmpty : World := ⟨emptyStore, false, "2026-10-12", "inv-new"⟩

/-! ## Claim theorems -/

/-- C1, counterexample: the Authorization Gate does **not** implement the
spec's decision table.  On `sessionPresent = true` and the path `"/about"` —
neither under the protected prefix nor public — the table's last row answers
`Allow`, but the code redirects the request away to `/dashboard`. -/
theorem authorized_specTable_cex :
    authorized true "/about" = .redirectAway "/dashboard" ∧
    specGate true "/about" = .allow ∧
    authorized true "/about" ≠ specGate true "/about" := by decide

/-- C1, amended: the gate matches the spec's decision table on every row
except the last, which must read: a session-present request to a path that is
neither protected nor public is answered `RedirectAway(home)`, and a
session-absent one `Allow`. -/
theorem authorized_matches_amendedTable :
    ∀ (s : Bool) (p : String), authorized s p = specGateAmended s p := by
  intro s p
  cases s <;> by_cases h : startsWithStr p "/dashboard" <;>
    simp [authorized, specGateAmended, h]

/-- C10: the protected-path test is plain string-prefix matching on the
literal `/dashboard`: every path beginning with that prefix (including
`/dashboard-other`) is treated as protected, and a session-present request to
any path not beginning with it is redirected to `/dashboard`. -/
theorem authorized_prefixMatching :
    (∀ (s : Bool) (p : String),
      authorized s p =
        if startsWithStr p "/dashboard" then
          if s then .allow else .denyRedirect "/login"
        else if s then .redirectAway "/dashboard" else .allow) ∧
    authorized true "/dashboard-other" = .allow ∧
    authorized false "/dashboard-other" = .denyRedirect "/login" ∧
    authorized true "/profile" = .redirectAway "/dashboard" :=
  ⟨fun _ _ => rfl, by decide, by decide, by decide⟩

/-- C4, counterexample: `fetchFilteredInvoices` does not clamp the page
number.  Page `0` yields the negative offset `-6`, the query fails (Postgres
rejects a negative `OFFSET`), and the result differs from the page-1 result
instead of equalling it. -/
theorem fetchFilteredInvoices_pageZero_cex :
    invoicesOffset 0 = -6 ∧
    fetchFilteredInvoices wOk "" 0 = .error .storeError ∧
    fetchFilteredInvoices wOk "" 1 =
      .ok [⟨"inv-1", mkRat 4500 1, "2026-01-15", .paid, "Alice Doe",
        "alice@example.com", "/img/alice.png"⟩] ∧
    fetchFilteredInvoices wOk "" 0 ≠ fetchFilteredInvoices wOk "" 1 := by
  refine ⟨by decide, rfl, ?_, ?_⟩ <;> decide

/-- C4, amended: for every page number below 1 the computed offset
`(page - 1) * 6` is negative and `fetchFilteredInvoices` fails with the
store error instead of serving page 1. -/
theorem fetchFilteredInvoices_pageBelowOne (w : World) (q : String) (page : ℤ)
    (h : page < 1) :
    invoicesOffset page < 0 ∧ fetchFilteredInvoices w q page = .error .storeError := by
  have hoff : invoicesOffset page < 0 := by
    unfold invoicesOffset ITEMS_PER_PAGE; nlinarith
  exact ⟨hoff, by unfold fetchFilteredInvoices; simp [hoff]⟩

/-- C4 witness: page 0 on a concrete world. -/
theorem fetchFilteredInvoices_pageBelowOne_witness :
    invoicesOffset 0 < 0 ∧ fetchFilteredInvoices wEmpty "x" 0 = .error .storeError :=
  fetchFilteredInvoices_pageBelowOne wEmpty "x" 0 (by decide)

/-- C8: `fetchInvoicesPages` returns the ceiling of the matching row count
over the page size, for the same filter predicate `matchesQuery` as the
paginated list: the page count times 6 bounds the matching row count from
above, and one less page would not suffice. -/
theorem fetchInvoicesPages_ceiling (w : World) (q : String) (h : w.dbFails = false) :
    ∃ n : ℤ, fetchInvoicesPages w q = .ok n ∧
      (matchingCount w.store q : ℤ) ≤ n * ITEMS_PER_PAGE ∧
      (n - 1) * ITEMS_PER_PAGE < (matchingCount w.store q : ℤ) := by
  refine ⟨totalPages (matchingCount w.store q), ?_, ?_, ?_⟩
  · unfold fetchInvoicesPages runSql; simp [h, Except.map]
  · have h1 : ((matchingCount w.store q : ℚ) / 6) ≤ (totalPages (matchingCount w.store q) : ℚ) := by
      unfold totalPages ITEMS_PER_PAGE
      push_cast
      exact Int.le_ceil _
    have h2 : (matchingCount w.store q : ℚ) ≤ (totalPages (matchingCount w.store q) : ℚ) * 6 := by
      rw [div_le_iff₀ (by norm_num : (0:ℚ) < 6)] at h1
      exact h1
    unfold ITEMS_PER_PAGE
    exact_mod_cast h2
  · have h1 : (totalPages (matchingCount w.store q) : ℚ) <
        (matchingCount w.store q : ℚ) / 6 + 1 := by
      unfold totalPages ITEMS_PER_PAGE
      push_cast
      exact Int.ceil_lt_add_one _
    have h2 : ((totalPages (matchingCount w.store q) : ℚ) - 1) * 6 <
        (matchingCount w.store q : ℚ) := by
      rw [← lt_div_iff₀ (by norm_num : (0:ℚ) < 6)]
      linarith
    unfold ITEMS_PER_PAGE
    exact_mod_cast h2

/-- C8 witness: the empty query on the one-invoice store. -/
theorem fetchInvoicesPages_ceiling_witness :
    ∃ n : ℤ, fetchInvoicesPages wOk "" = .ok n ∧
      (matchingCount wOk.store "" : ℤ) ≤ n * ITEMS_PER_PAGE ∧
      (n - 1) * ITEMS_PER_PAGE < (matchingCount wOk.store "" : ℤ) :=
  fetchInvoicesPages_ceiling wOk "" rfl

/-- The `?? '0'` coalescing of a status sum yields exactly the case-wise sum:
over an empty invoices table the `NULL` aggregate becomes `0`, which is the
sum over no rows. -/
theorem sqlStatusSum_coalesce (st : Status) (invs : List Invoice) :
    (sqlStatusSum st invs).getD 0 = sumByStatus st invs := by
  unfold sqlStatusSum
  by_cases h : invs.isEmpty <;> simp [h]
  rw [List.isEmpty_iff] at h
  simp [h, sumByStatus]

/-- C9: `fetchCardData` never surfaces a null: on every store state whose
statements succeed — the empty invoices table, where the `SUM` aggregates are
`NULL`, included — all four result fields are the coalesced-to-zero totals,
already formatted. -/
theorem fetchCardData_neverNull (w : World) (h : w.dbFails = false) :
    fetchCardData w = .ok
      { numberOfCustomers := w.store.customers.length
        numberOfInvoices := w.store.invoices.length
        totalPaidInvoices := formatCurrency (sumByStatus .paid w.store.invoices)
        totalPendingInvoices := formatCurrency (sumByStatus .pending w.store.invoices) } := by
  unfold fetchCardData
  simp [h, sqlStatusSum_coalesce]

/-- C9 witness: the empty store, where both `SUM` aggregates are `NULL` and
the coalescing to zero kicks in. -/
theorem fetchCardData_neverNull_witness :
    fetchCardData wEmpty = .ok
      { numberOfCustomers := wEmpty.store.customers.length
        numberOfInvoices := wEmpty.store.invoices.length
        totalPaidInvoices := formatCurrency (sumByStatus .paid wEmpty.store.invoices)
        totalPendingInvoices := formatCurrency (sumByStatus .pending wEmpty.store.invoices) } :=
  fetchCardData_neverNull wEmpty rfl

/-- C5, counterexample: a store-level query error in `fetchInvoiceById` is
**not** distinguishable from absence.  With the row `inv-1` present but the
query failing, the call returns `none` — exactly the result of the same
lookup on a healthy store with no matching row. -/
theorem fetchInvoiceById_errorMasked_cex :
    fetchInvoiceById wFail "inv-1" = none ∧
    fetchInvoiceById wEmpty "inv-1" = none ∧
    inv1 ∈ wFail.store.invoices ∧ inv1.id = "inv-1" := by
  refine ⟨rfl, rfl, ?_, rfl⟩
  decide

/-- C5, amended: `fetchInvoiceById` never throws: it returns the matching
invoice with `amount` divided by 100 when the query succeeds and a row
matches, and `none` when no row matches — but a store-level query error is
swallowed (only logged) and produces the same `none`, indistinguishable from
absence. -/
theorem fetchInvoiceById_characterisation :
    ∀ (w : World) (id : String),
      fetchInvoiceById w id =
        if w.dbFails then none
        else
          ((w.store.invoices.filter fun i => i.id == id).map fun i =>
            (⟨i.id, i.customer_id, toDollars i.amount, i.status⟩ :
              InvoiceFormRow)).head? := by
  intro w id
  unfold fetchInvoiceById runSql
  cases h : w.dbFails <;> simp [h]

/-- A field map whose amount is the string `"0"`: numeric, but not greater
than zero. -/
def fZero : FormInput := ⟨some "c1", some "0", some "pending"⟩

/-- C2, counterexample: the schema is `z.coerce.number()` with no positivity
check, so the amount `"0"` (≤ 0) passes validation: `createInvoice` redirects
and writes a row instead of rejecting, and `updateInvoice` likewise
redirects. -/
theorem createInvoice_amountZero_cex :
    jsNumberOfString "0" = some 0 ∧
    zodParse fZero = .ok ⟨"c1", 0, .pending⟩ ∧
    (createInvoice wEmpty fZero).outcome = .redirected "/dashboard/invoices" ∧
    (createInvoice wEmpty fZero).store.invoices.length = 1 ∧
    wEmpty.store.invoices.length = 0 ∧
    (updateInvoice wOk "inv-1" fZero).outcome = .redirected "/dashboard/invoices" := by
  have hz : zodParse fZero = .ok ⟨"c1", 0, .pending⟩ := by decide
  refine ⟨by decide, hz, ?_, ?_, rfl, ?_⟩ <;>
    simp [createInvoice, updateInvoice, hz, wEmpty, wOk, emptyStore, store1]

/-- When the amount field holds a non-numeric string, `parse` throws a
`ZodError` whose issues include the amount field. -/
theorem zodParse_nonNumeric (f : FormInput) (s : String)
    (hs : f.amount = some s) (hn : jsNumberOfString s = none) :
    ∃ errs, FormField.amount ∈ errs ∧ zodParse f = .error errs := by
  have ha : coerceNumber f.amount = none := by rw [hs]; exact hn
  unfold zodParse
  rw [ha]
  cases hc : f.customerId <;> cases hp : parseStatus f.status <;>
    exact ⟨_, by simp, rfl⟩

/-- C2, amended: for every field map whose amount is a non-numeric string
(one that coerces to `NaN`), `createInvoice` and `updateInvoice` reject with
a validation error whose field list contains `amount`, and perform no store
write (the store is untouched and nothing is revalidated).  Amount values
that are numeric but ≤ 0 are *not* rejected — the schema carries no
positivity check (see the counterexample). -/
theorem mutations_reject_nonNumericAmount
    (w : World) (f : FormInput) (i s : String)
    (hs : f.amount = some s) (hn : jsNumberOfString s = none) :
    ∃ errs, FormField.amount ∈ errs ∧
      createInvoice w f = ⟨.validationError errs, w.store, []⟩ ∧
      updateInvoice w i f = ⟨.validationError errs, w.store, []⟩ := by
  obtain ⟨errs, hmem, he⟩ := zodParse_nonNumeric f s hs hn
  exact ⟨errs, hmem, by simp [createInvoice, he], by simp [updateInvoice, he]⟩

/-- C2 witness: the non-numeric amount `"abc"` on a concrete world. -/
theorem mutations_reject_nonNumericAmount_witness :
    ∃ errs, FormField.amount ∈ errs ∧
      createInvoice wEmpty ⟨some "c1", some "abc", some "pending"⟩ =
        ⟨.validationError errs, wEmpty.store, []⟩ ∧
      updateInvoice wEmpty "inv-1" ⟨some "c1", some "abc", some "pending"⟩ =
        ⟨.validationError errs, wEmpty.store, []⟩ :=
  mutations_reject_nonNumericAmount wEmpty ⟨some "c1", some "abc", some "pending"⟩
    "inv-1" "abc" rfl (by decide)

/-- A valid field map (positive numeric amount, enum status, id string) whose
dollar amount has more than two decimal places. -/
def fTiny : FormInput := ⟨some "c1", some "0.005", some "pending"⟩

/-- C3, counterexample: `createInvoice` computes `amount * 100` with no
rounding.  The valid input amount `"0.005"` (a number strictly greater than
0) is persisted as the cents value `1/2`, which is not an integer cent count
and differs from `round(0.005 * 100) = 1`. -/
theorem createInvoice_noRounding_cex :
    zodParse fTiny = .ok ⟨"c1", mkRat 1 200, .pending⟩ ∧
    (0 : ℚ) < mkRat 1 200 ∧
    (createInvoice wEmpty fTiny).store.invoices.map Invoice.amount = [mkRat 1 2] ∧
    round ((mkRat 1 200 : ℚ) * 100) = 1 ∧
    (mkRat 1 2 : ℚ) ≠ ((round ((mkRat 1 200 : ℚ) * 100) : ℤ) : ℚ) ∧
    (mkRat 1 2 : ℚ).den ≠ 1 := by
  have hz : zodParse fTiny = .ok ⟨"c1", mkRat 1 200, .pending⟩ := by decide
  have hround : round ((mkRat 1 200 : ℚ) * 100) = 1 := by
    norm_num [Rat.mkRat_eq_div, round_eq]
  refine ⟨hz, by norm_num [Rat.mkRat_eq_div], ?_, hround, ?_, by decide⟩
  · simp [createInvoice, hz, wEmpty, emptyStore, toCents]
    norm_num [Rat.mkRat_eq_div]
  · rw [hround]
    norm_num [Rat.mkRat_eq_div]

/-- C3, amended: for every valid input whose dollar amount times 100 is an
integer (in particular every amount with at most two decimal places),
`createInvoice` appends exactly one row whose `amount` is
`amount * 100 = round(amount * 100)` (an integer cent count) and whose
`date` is the ISO date of the processing instant, and redirects.  For other
amounts the stored value is the unrounded `amount * 100` (see the
counterexample). -/
theorem createInvoice_persistsCentsAndDate
    (w : World) (f : FormInput) (p : ParsedInvoiceForm)
    (hok : zodParse f = .ok p) (hdb : w.dbFails = false)
    (hint : (toCents p.amount).den = 1) :
    (createInvoice w f).store.invoices =
      w.store.invoices ++
        [⟨w.freshId, p.customerId, toCents p.amount, p.status, w.today⟩] ∧
    toCents p.amount = ((round (toCents p.amount) : ℤ) : ℚ) ∧
    (createInvoice w f).outcome = .redirected "/dashboard/invoices" := by
  have hq : (((toCents p.amount).num : ℤ) : ℚ) = toCents p.amount :=
    (Rat.den_eq_one_iff _).mp hint
  refine ⟨by simp [createInvoice, hok, hdb, toCents], ?_,
    by simp [createInvoice, hok, hdb]⟩
  rw [← hq, round_intCast]

/-- C3 witness: the amount `"45.00"` on the empty store. -/
theorem createInvoice_persistsCentsAndDate_witness :
    (createInvoice wEmpty ⟨some "c1", some "45.00", some "pending"⟩).store.invoices =
      wEmpty.store.invoices ++
        [⟨wEmpty.freshId, "c1", toCents (mkRat 45 1), .pending, wEmpty.today⟩] ∧
    toCents (mkRat 45 1) = ((round (toCents (mkRat 45 1)) : ℤ) : ℚ) ∧
    (createInvoice wEmpty ⟨some "c1", some "45.00", some "pending"⟩).outcome =
      .redirected "/dashboard/invoices" := by
  have h := createInvoice_persistsCentsAndDate wEmpty
    ⟨some "c1", some "45.00", some "pending"⟩ ⟨"c1", mkRat 45 1, .pending⟩
    (by decide) rfl (by norm_num [toCents, Rat.mkRat_eq_div])
  exact h

/-- C6: when the store write fails, every mutation aborts before the
cache-invalidation and redirect steps: nothing is passed to
`revalidatePath`, no redirect is issued, and the store is unchanged.  (With
invalid input the write is never reached and the same holds.) -/
theorem mutations_abortOnWriteFailure
    (w : World) (f : FormInput) (i : String) (h : w.dbFails = true) :
    (createInvoice w f).revalidated = [] ∧
    (createInvoice w f).outcome ≠ .redirected "/dashboard/invoices" ∧
    (createInvoice w f).store = w.store ∧
    (updateInvoice w i f).revalidated = [] ∧
    (updateInvoice w i f).outcome ≠ .redirected "/dashboard/invoices" ∧
    (updateInvoice w i f).store = w.store ∧
    (deleteInvoice w i).revalidated = [] ∧
    (deleteInvoice w i).outcome = .dbError ∧
    (deleteInvoice w i).store = w.store := by
  cases hz : zodParse f <;>
    simp [createInvoice, updateInvoice, deleteInvoice, hz, h]

/-- C6 witness: a failing store on a concrete world and field map. -/
theorem mutations_abortOnWriteFailure_witness :
    (createInvoice wFail fZero).revalidated = [] ∧
    (createInvoice wFail fZero).outcome ≠ .redirected "/dashboard/invoices" ∧
    (createInvoice wFail fZero).store = wFail.store ∧
    (updateInvoice wFail "inv-1" fZero).revalidated = [] ∧
    (updateInvoice wFail "inv-1" fZero).outcome ≠ .redirected "/dashboard/invoices" ∧
    (updateInvoice wFail "inv-1" fZero).store = wFail.store ∧
    (deleteInvoice wFail "inv-1").revalidated = [] ∧
    (deleteInvoice wFail "inv-1").outcome = .dbError ∧
    (deleteInvoice wFail "inv-1").store = wFail.store :=
  mutations_abortOnWriteFailure wFail fZero "inv-1" rfl

/-- A field map submitting 45.00 dollars. -/
def f45 : FormInput := ⟨some "c1", some "45.00", some "pending"⟩

/-- C7: the currency conversions are exact inverses — for every dollar
amount, dividing by 100 at read time undoes multiplying by 100 at write time
— and concretely, creating an invoice for `45.00` dollars and fetching it
back by its id yields the edit-form amount `45`. -/
theorem currency_roundTrip :
    (∀ d : ℚ, toDollars (toCents d) = d) ∧
    fetchInvoiceById
        ⟨(createInvoice wEmpty f45).store, false, wEmpty.today, wEmpty.freshId⟩
        "inv-new" = some ⟨"inv-new", "c1", 45, .pending⟩ := by
  constructor
  · intro d
    unfold toDollars toCents
    exact mul_div_cancel_right₀ d (by norm_num)
  · have hz : zodParse f45 = .ok ⟨"c1", mkRat 45 1, .pending⟩ := by decide
    simp [createInvoice, hz, fetchInvoiceById, runSql, wEmpty, emptyStore,
      toDollars, toCents]
